import Mathlib

/-!
Shallow embedding of `src/src-tauri/scripts/generate-installer-assets.py`.

The script procedurally draws three raster images (a macOS DMG background
and two Windows NSIS installer bitmaps) with PIL and writes them into a
fixed output directory.

Modelling conventions:
* An RGB pixel is a triple of integers (`Color`).
* An in-memory PIL image is its dimensions plus a pixel function (`Image`).
* Python float arithmetic in the gradient loops is modelled by exact
  rational arithmetic: for every in-range input of this script
  (x in 0..149, y in 0..313) the IEEE-754 double computation of
  `int(249 - (x/150)*30)`, `int(x/150*35)`, `int(249 - (y/314)*50)`,
  `int(115 - (y/314)*40)` and `int(22 + (y/314)*10)` returns the same
  integer as the exact rational computation, so nothing is lost.
* Python `int()` truncates toward zero (`pyInt`).
* PIL rasterization of the two arrow primitives follows Pillow's C code:
  a width-4 horizontal line from (x0,y) to (x1,y) fills the rows
  y - 1 .. y + 2 (perpendicular extents floor((w-1)/2) and ceil((w-1)/2)
  in `ImagingDrawWideLine`), and a filled polygon covers the integer
  points of the closed region.
-/

namespace Sentinel

/-- An RGB color triple, as PIL's `(r, g, b)` tuples. -/
structure Color where
  r : ℤ
  g : ℤ
  b : ℤ
deriving DecidableEq, Repr

/-- `DMG_BG_COLOR = (245, 245, 247)`. -/
def DMG_BG_COLOR : Color := ⟨245, 245, 247⟩

/-- `ARROW_COLOR = (160, 160, 165)`. -/
def ARROW_COLOR : Color := ⟨160, 160, 165⟩

/-- `ACCENT_COLOR = (249, 115, 22)`. -/
def ACCENT_COLOR : Color := ⟨249, 115, 22⟩

/-- An in-memory raster image: dimensions and a pixel map. -/
structure Image where
  width : ℕ
  height : ℕ
  px : ℕ → ℕ → Color

/-- `Image.new('RGB', (w, h), c)`: a uniform fill. -/
def newRGB (w h : ℕ) (c : Color) : Image := ⟨w, h, fun _ _ => c⟩

/-- Python `int()` applied to a (here rational-modelled) float:
truncation toward zero. -/
def pyInt (q : ℚ) : ℤ := if 0 ≤ q then ⌊q⌋ else ⌈q⌉

/-! ### create_nsis_header -/

/-- Header image width (`width, height = 150, 57`). -/
def headerWidth : ℕ := 150

/-- Header image height. -/
def headerHeight : ℕ := 57

/-- `shade = int(249 - (x / width) * 30)`. -/
def headerShade (x : ℕ) : ℤ := pyInt (249 - ((x : ℚ) / headerWidth) * 30)

/-- `max(80, 115 - int(x/width*35))`: the green channel of column x. -/
def headerGreen (x : ℕ) : ℤ := max 80 (115 - pyInt (((x : ℚ) / headerWidth) * 35))

/-- The fill color `(shade, max(80, 115 - int(x/width*35)), 22)` of column x. -/
def headerColor (x : ℕ) : Color := ⟨headerShade x, headerGreen x, 22⟩

/-- `draw.line([(x, 0), (x, height)], fill=c)`: both endpoints are
inclusive and the out-of-range endpoint `(x, height)` is clipped, so the
whole column `x` is painted. -/
def drawColumn (img : Image) (x : ℕ) (c : Color) : Image :=
  { img with px := fun i j => if i = x then c else img.px i j }

/-- `create_nsis_header()`: a 150x57 image filled with `ACCENT_COLOR`,
then one full-height gradient column per x in `range(width)`. -/
def create_nsis_header_img : Image :=
  (List.range headerWidth).foldl (fun im x => drawColumn im x (headerColor x))
    (newRGB headerWidth headerHeight ACCENT_COLOR)

/-! ### create_nsis_sidebar -/

/-- Sidebar image width (`width, height = 164, 314`). -/
def sidebarWidth : ℕ := 164

/-- Sidebar image height. -/
def sidebarHeight : ℕ := 314

/-- The fill color of row y: `factor = y / height`,
`(int(249 - factor * 50), int(115 - factor * 40), int(22 + factor * 10))`. -/
def sidebarColor (y : ℕ) : Color :=
  let factor : ℚ := (y : ℚ) / sidebarHeight
  ⟨pyInt (249 - factor * 50), pyInt (115 - factor * 40), pyInt (22 + factor * 10)⟩

/-- `draw.line([(0, y), (width, y)], fill=c)`: the whole row `y` is
painted (the endpoint `(width, y)` is clipped). -/
def drawRow (img : Image) (y : ℕ) (c : Color) : Image :=
  { img with px := fun i j => if j = y then c else img.px i j }

/-- `create_nsis_sidebar()`: a 164x314 image filled with `ACCENT_COLOR`,
then one full-width gradient row per y in `range(height)`. -/
def create_nsis_sidebar_img : Image :=
  (List.range sidebarHeight).foldl (fun im y => drawRow im y (sidebarColor y))
    (newRGB sidebarWidth sidebarHeight ACCENT_COLOR)

/-! ### create_dmg_background -/

/-- DMG background width (`width, height = 660, 400`). -/
def dmgWidth : ℕ := 660

/-- DMG background height. -/
def dmgHeight : ℕ := 400

/-- `arrow_y = 190`. -/
def arrow_y : ℕ := 190

/-- `arrow_start_x = 260`. -/
def arrow_start_x : ℕ := 260

/-- `arrow_end_x = 400`. -/
def arrow_end_x : ℕ := 400

/-- `shaft_thickness = 4`. -/
def shaft_thickness : ℕ := 4

/-- `head_length = 14`. -/
def head_length : ℕ := 14

/-- `head_width = 10`. -/
def head_width : ℕ := 10

/-- The polygon vertex list
`[(arrow_end_x, arrow_y), (arrow_end_x - head_length, arrow_y - head_width),
(arrow_end_x - head_length, arrow_y + head_width)]`. -/
def arrow_head : List (ℕ × ℕ) :=
  [(arrow_end_x, arrow_y),
   (arrow_end_x - head_length, arrow_y - head_width),
   (arrow_end_x - head_length, arrow_y + head_width)]

/-- `draw.line([(x0, y0), (x1, y0)], fill=c, width=w)` for a horizontal
segment, `w ≥ 2`: Pillow fills the axis-aligned rectangle with columns
x0..x1 and rows `y0 - (w-1)/2 .. y0 + w/2` (floor and ceiling of the
half-thickness `(w-1)/2`). -/
def drawWideHLine (img : Image) (x0 x1 y0 w : ℕ) (c : Color) : Image :=
  { img with px := fun x y =>
      if x0 ≤ x ∧ x ≤ x1 ∧ y0 - (w - 1) / 2 ≤ y ∧ y ≤ y0 + w / 2 then c
      else img.px x y }

/-- `draw.polygon(..., fill=c)` for a rightward-pointing isoceles
triangle with tip `(tipx, tipy)` and vertical base at `tipx - len`
reaching `hw` above and below `tipy`: fills the integer points of the
closed triangle. -/
def drawTriangleRight (img : Image) (tipx tipy len hw : ℕ) (c : Color) : Image :=
  { img with px := fun x y =>
      if tipx - len ≤ x ∧ x ≤ tipx ∧ len * Nat.dist y tipy ≤ hw * (tipx - x) then c
      else img.px x y }

/-- `create_dmg_background()`: 660x400 uniform `DMG_BG_COLOR` fill, then
the arrow shaft `draw.line([(arrow_start_x, arrow_y),
(arrow_end_x - 12, arrow_y)], fill=ARROW_COLOR, width=shaft_thickness)`,
then the arrowhead `draw.polygon(arrow_head, fill=ARROW_COLOR)`. -/
def create_dmg_background_img : Image :=
  drawTriangleRight
    (drawWideHLine (newRGB dmgWidth dmgHeight DMG_BG_COLOR)
      arrow_start_x (arrow_end_x - 12) arrow_y shaft_thickness ARROW_COLOR)
    arrow_end_x arrow_y head_length head_width ARROW_COLOR

/-! ### The process environment, for the determinism claim

The script reads no command-line arguments, no environment variables, no
standard input and no random source. We make that visible by passing the
whole external environment to the generation step and observing that the
translated code never consults it. -/

/-- Everything a process run could observe from the outside world. -/
structure Env where
  argv : List String
  environ : List (String × String)
  stdinLines : List String
  randomSeed : ℕ

/-- The three pixel buffers produced by one run of the script, as a
function of the process environment. The source consults none of it:
each buffer is built from fixed constants only. -/
def generatedBuffers (_e : Env) : Image × Image × Image :=
  (create_dmg_background_img, create_nsis_header_img, create_nsis_sidebar_img)

/-! ### Filesystem and console model

Paths are lists of components (`os.path.join` appends a component and
never normalizes, so the literal `'..'` component is kept). A filesystem
is the list of existing directories plus a write history of files; the
current content of a path is its most recent write. -/

/-- A filesystem path, as its list of components. -/
abbrev Path := List String

/-- Text form of a path, as `os.path.join` produces it. -/
def renderPath (p : Path) : String := String.intercalate ("/") p

/-- `OUTPUT_DIR = os.path.join(os.path.dirname(__file__), '..', 'installer-assets')`. -/
def OUTPUT_DIR (scriptDir : Path) : Path := scriptDir ++ [".."] ++ ["installer-assets"]

/-- A file as written by `img.save(path, format)`: pixel buffer and format. -/
structure SavedFile where
  img : Image
  format : String

/-- Directories present plus the history of file writes (most recent first). -/
structure FileSys where
  dirs : List Path
  files : List (Path × SavedFile)

/-- The nonempty ancestors of a path, the path itself included. -/
def ancestors (p : Path) : List Path :=
  (List.range p.length).map fun k => p.take (k + 1)

/-- `os.makedirs(p, exist_ok=ok)`: creates the directory and any missing
parents; raises `FileExistsError` iff the directory already exists and
`exist_ok` is false, and is a no-op when it exists and `exist_ok` is true. -/
def makedirs (fs : FileSys) (p : Path) (exist_ok : Bool) : Except String FileSys :=
  if p ∈ fs.dirs then
    if exist_ok then .ok fs else .error ("FileExistsError")
  else
    .ok { fs with dirs := (ancestors p).filter (fun q => decide (q ∉ fs.dirs)) ++ fs.dirs }

/-- Record a write at `p`: the new content shadows any earlier write. -/
def setFile (files : List (Path × SavedFile)) (p : Path) (d : SavedFile) :
    List (Path × SavedFile) :=
  (p, d) :: files

/-- Current content at `p`: the most recent write, if any. -/
def getFile (files : List (Path × SavedFile)) (p : Path) : Option SavedFile :=
  (files.find? fun e => decide (e.1 = p)).map Prod.snd

/-- `img.save(path, format)`: overwrites any existing file at `path`;
fails iff the parent directory does not exist. -/
def imgSave (fs : FileSys) (p : Path) (d : SavedFile) : Except String FileSys :=
  if p.dropLast ∈ fs.dirs then .ok { fs with files := setFile fs.files p d }
  else .error ("FileNotFoundError")

/-- `os.path.join(OUTPUT_DIR, 'dmg-background.png')`. -/
def dmgPath (scriptDir : Path) : Path := OUTPUT_DIR scriptDir ++ ["dmg-background.png"]

/-- `os.path.join(OUTPUT_DIR, 'nsis-header.bmp')`. -/
def headerPath (scriptDir : Path) : Path := OUTPUT_DIR scriptDir ++ ["nsis-header.bmp"]

/-- `os.path.join(OUTPUT_DIR, 'nsis-sidebar.bmp')`. -/
def sidebarPath (scriptDir : Path) : Path := OUTPUT_DIR scriptDir ++ ["nsis-sidebar.bmp"]

/-- What `create_dmg_background` saves: the rendered buffer, PNG format. -/
def dmgSavedFile : SavedFile := ⟨create_dmg_background_img, "PNG"⟩

/-- What `create_nsis_header` saves: the rendered buffer, BMP format. -/
def headerSavedFile : SavedFile := ⟨create_nsis_header_img, "BMP"⟩

/-- What `create_nsis_sidebar` saves: the rendered buffer, BMP format. -/
def sidebarSavedFile : SavedFile := ⟨create_nsis_sidebar_img, "BMP"⟩

/-- `create_dmg_background()` seen from the filesystem: renders, saves to
its fixed path, prints one confirmation line, returns the path. -/
def create_dmg_background_run (scriptDir : Path) (fs : FileSys) :
    Except String (FileSys × String × String) :=
  match imgSave fs (dmgPath scriptDir) dmgSavedFile with
  | .error e => .error e
  | .ok fs2 => .ok (fs2, "Created: " ++ renderPath (dmgPath scriptDir),
      renderPath (dmgPath scriptDir))

/-- `create_nsis_header()` seen from the filesystem. -/
def create_nsis_header_run (scriptDir : Path) (fs : FileSys) :
    Except String (FileSys × String × String) :=
  match imgSave fs (headerPath scriptDir) headerSavedFile with
  | .error e => .error e
  | .ok fs2 => .ok (fs2, "Created: " ++ renderPath (headerPath scriptDir),
      renderPath (headerPath scriptDir))

/-- `create_nsis_sidebar()` seen from the filesystem. -/
def create_nsis_sidebar_run (scriptDir : Path) (fs : FileSys) :
    Except String (FileSys × String × String) :=
  match imgSave fs (sidebarPath scriptDir) sidebarSavedFile with
  | .error e => .error e
  | .ok fs2 => .ok (fs2, "Created: " ++ renderPath (sidebarPath scriptDir),
      renderPath (sidebarPath scriptDir))

/-- Observable outcome of a successful run: final filesystem, console
lines in order, and the values returned by the three creators in order. -/
structure RunResult where
  fs : FileSys
  stdout : List String
  returned : List String

/-- One full run of the script: the module-level
`os.makedirs(OUTPUT_DIR, exist_ok=True)`, then the `__main__` driver:
start banner, the three creators in fixed order, end banner. Any error
aborts the run and propagates. -/
def runScript (scriptDir : Path) (fs0 : FileSys) : Except String RunResult :=
  match makedirs fs0 (OUTPUT_DIR scriptDir) true with
  | .error e => .error e
  | .ok fs1 =>
    match create_dmg_background_run scriptDir fs1 with
    | .error e => .error e
    | .ok (fs2, line1, ret1) =>
      match create_nsis_header_run scriptDir fs2 with
      | .error e => .error e
      | .ok (fs3, line2, ret2) =>
        match create_nsis_sidebar_run scriptDir fs3 with
        | .error e => .error e
        | .ok (fs4, line3, ret3) =>
          .ok ⟨fs4, ["Generating minimal installer assets...", line1, line2, line3, "Done!"],
            [ret1, ret2, ret3]⟩

/-- A sample script location used to instantiate the run theorems. -/
def demoDir : Path := ["scripts"]

/-- A placeholder for a previously written file. -/
def staleFile : SavedFile := ⟨newRGB 1 1 ⟨0, 0, 0⟩, "PNG"⟩

/-- A filesystem in which the output directory already exists and already
holds the three output files. -/
def demoFS : FileSys :=
  { dirs := [OUTPUT_DIR demoDir],
    files := [(dmgPath demoDir, staleFile), (headerPath demoDir, staleFile),
      (sidebarPath demoDir, staleFile)] }

/-- The empty filesystem. -/
def emptyFS : FileSys := { dirs := [], files := [] }

/-- The filesystem after `os.makedirs` has created the output directory
(and its missing parents) starting from `emptyFS` at `demoDir`. -/
def demoFS1 : FileSys :=
  { dirs := [["scripts"], ["scripts", ".."], ["scripts", "..", "installer-assets"]],
    files := [] }

/-- The observable outcome of running the script at `demoDir` on the
empty filesystem. -/
def demoRunResult : RunResult :=
  ⟨{ demoFS1 with files := setFile (setFile (setFile demoFS1.files (dmgPath demoDir) dmgSavedFile)
      (headerPath demoDir) headerSavedFile) (sidebarPath demoDir) sidebarSavedFile },
   ["Generating minimal installer assets...",
    "Created: " ++ renderPath (dmgPath demoDir),
    "Created: " ++ renderPath (headerPath demoDir),
    "Created: " ++ renderPath (sidebarPath demoDir), "Done!"],
   [renderPath (dmgPath demoDir), renderPath (headerPath demoDir),
    renderPath (sidebarPath demoDir)]⟩

/-! ## Helper lemmas -/

theorem pyInt_of_nonneg {q : ℚ} (h : 0 ≤ q) : pyInt q = ⌊q⌋ := if_pos h

theorem pyInt_mono {p q : ℚ} (hp : 0 ≤ p) (h : p ≤ q) : pyInt p ≤ pyInt q := by
  rw [pyInt_of_nonneg hp, pyInt_of_nonneg (hp.trans h)]
  exact Int.floor_le_floor h

theorem pyInt_nonneg {q : ℚ} (h : 0 ≤ q) : 0 ≤ pyInt q := by
  rw [pyInt_of_nonneg h]
  exact Int.floor_nonneg.2 h

theorem pyInt_eval {q : ℚ} {n : ℤ} (h0 : 0 ≤ q) (h1 : (n : ℚ) ≤ q) (h2 : q < n + 1) :
    pyInt q = n := by
  rw [pyInt_of_nonneg h0, Int.floor_eq_iff]
  exact ⟨h1, h2⟩

theorem foldl_drawColumn_px (f : ℕ → Color) :
    ∀ (L : List ℕ) (img : Image) (i j : ℕ),
      (L.foldl (fun im x => drawColumn im x (f x)) img).px i j
        = if i ∈ L then f i else img.px i j := by
  intro L
  induction L with
  | nil => intro img i j; simp
  | cons a t ih =>
    intro img i j
    rw [List.foldl_cons, ih]
    by_cases ht : i ∈ t
    · simp [ht]
    · by_cases ha : i = a
      · subst ha
        simp [ht, drawColumn]
      · simp [ht, ha, drawColumn]

theorem foldl_drawRow_px (f : ℕ → Color) :
    ∀ (L : List ℕ) (img : Image) (i j : ℕ),
      (L.foldl (fun im y => drawRow im y (f y)) img).px i j
        = if j ∈ L then f j else img.px i j := by
  intro L
  induction L with
  | nil => intro img i j; simp
  | cons a t ih =>
    intro img i j
    rw [List.foldl_cons, ih]
    by_cases ht : j ∈ t
    · simp [ht]
    · by_cases ha : j = a
      · subst ha
        simp [ht, drawRow]
      · simp [ht, ha, drawRow]

theorem foldl_drawRow_dims (f : ℕ → Color) :
    ∀ (L : List ℕ) (img : Image),
      (L.foldl (fun im y => drawRow im y (f y)) img).width = img.width ∧
      (L.foldl (fun im y => drawRow im y (f y)) img).height = img.height := by
  intro L
  induction L with
  | nil => intro img; exact ⟨rfl, rfl⟩
  | cons a t ih => intro img; exact ih _

theorem header_px (x y : ℕ) (hx : x < headerWidth) :
    create_nsis_header_img.px x y = headerColor x := by
  rw [create_nsis_header_img, foldl_drawColumn_px, if_pos (List.mem_range.2 hx)]

theorem sidebar_px (x y : ℕ) (hy : y < sidebarHeight) :
    create_nsis_sidebar_img.px x y = sidebarColor y := by
  rw [create_nsis_sidebar_img, foldl_drawRow_px, if_pos (List.mem_range.2 hy)]

theorem headerShade_eq (x : ℕ) : headerShade x = pyInt (249 - ((x : ℚ) / 150) * 30) := by
  norm_num [headerShade, headerWidth]

theorem headerGreen_eq (x : ℕ) :
    headerGreen x = max 80 (115 - pyInt (((x : ℚ) / 150) * 35)) := by
  norm_num [headerGreen, headerWidth]

theorem sidebarColor_eq (y : ℕ) :
    sidebarColor y = ⟨pyInt (249 - ((y : ℚ) / 314) * 50), pyInt (115 - ((y : ℚ) / 314) * 40),
      pyInt (22 + ((y : ℚ) / 314) * 10)⟩ := by
  norm_num [sidebarColor, sidebarHeight]

theorem headerShade_anti {x1 x2 : ℕ} (h : x1 ≤ x2) (h2 : x2 ≤ 149) :
    headerShade x2 ≤ headerShade x1 := by
  rw [headerShade_eq, headerShade_eq]
  have hc : (x2 : ℚ) ≤ 149 := by exact_mod_cast h2
  have hc12 : (x1 : ℚ) ≤ (x2 : ℚ) := by exact_mod_cast h
  apply pyInt_mono
  · linarith
  · linarith

theorem headerShade_bounds {x : ℕ} (hx : x < 150) :
    219 ≤ headerShade x ∧ headerShade x ≤ 249 := by
  have h1 : headerShade 149 ≤ headerShade x := headerShade_anti (by omega) (by omega)
  have h2 : headerShade x ≤ headerShade 0 := headerShade_anti (Nat.zero_le x) (by omega)
  have e1 : headerShade 149 = 219 := by
    rw [headerShade_eq]
    apply pyInt_eval <;> norm_num
  have e0 : headerShade 0 = 249 := by
    rw [headerShade_eq]
    apply pyInt_eval <;> norm_num
  omega

theorem headerT_bounds {x : ℕ} (hx : x < 150) :
    0 ≤ pyInt (((x : ℚ) / 150) * 35) ∧ pyInt (((x : ℚ) / 150) * 35) ≤ 34 := by
  have h0 : (0 : ℚ) ≤ ((x : ℚ) / 150) * 35 := by positivity
  have hc : (x : ℚ) ≤ 149 := by exact_mod_cast Nat.le_of_lt_succ hx
  have h1 : pyInt (((x : ℚ) / 150) * 35) ≤ pyInt ((((149 : ℕ) : ℚ) / 150) * 35) := by
    apply pyInt_mono h0
    have : ((149 : ℕ) : ℚ) = 149 := by norm_num
    rw [this]
    linarith
  have e : pyInt ((((149 : ℕ) : ℚ) / 150) * 35) = 34 := by
    apply pyInt_eval <;> norm_num
  have h2 := pyInt_nonneg h0
  omega

theorem headerGreen_bounds {x : ℕ} (hx : x < 150) :
    81 ≤ headerGreen x ∧ headerGreen x ≤ 115 ∧
      headerGreen x = 115 - pyInt (((x : ℚ) / 150) * 35) := by
  obtain ⟨hl, hu⟩ := headerT_bounds hx
  rw [headerGreen_eq]
  constructor
  · omega
  constructor
  · omega
  · omega

theorem sidebarR_bounds {y : ℕ} (hy : y < 314) :
    199 ≤ pyInt (249 - ((y : ℚ) / 314) * 50) ∧ pyInt (249 - ((y : ℚ) / 314) * 50) ≤ 249 := by
  have hc : (y : ℚ) ≤ 313 := by exact_mod_cast Nat.le_of_lt_succ hy
  have hc0 : (0 : ℚ) ≤ (y : ℚ) := by positivity
  have hnn : (0 : ℚ) ≤ 249 - ((y : ℚ) / 314) * 50 := by linarith
  have h1 : pyInt (249 - (((313 : ℕ) : ℚ) / 314) * 50) ≤ pyInt (249 - ((y : ℚ) / 314) * 50) := by
    apply pyInt_mono
    · norm_num
    · have : ((313 : ℕ) : ℚ) = 313 := by norm_num
      rw [this]
      linarith
  have h2 : pyInt (249 - ((y : ℚ) / 314) * 50) ≤ pyInt (249 - (((0 : ℕ) : ℚ) / 314) * 50) := by
    apply pyInt_mono hnn
    have : ((0 : ℕ) : ℚ) = 0 := by norm_num
    rw [this]
    linarith
  have e1 : pyInt (249 - (((313 : ℕ) : ℚ) / 314) * 50) = 199 := by
    apply pyInt_eval <;> norm_num
  have e2 : pyInt (249 - (((0 : ℕ) : ℚ) / 314) * 50) = 249 := by
    apply pyInt_eval <;> norm_num
  omega

theorem sidebarG_bounds {y : ℕ} (hy : y < 314) :
    75 ≤ pyInt (115 - ((y : ℚ) / 314) * 40) ∧ pyInt (115 - ((y : ℚ) / 314) * 40) ≤ 115 := by
  have hc : (y : ℚ) ≤ 313 := by exact_mod_cast Nat.le_of_lt_succ hy
  have hc0 : (0 : ℚ) ≤ (y : ℚ) := by positivity
  have hnn : (0 : ℚ) ≤ 115 - ((y : ℚ) / 314) * 40 := by linarith
  have h1 : pyInt (115 - (((313 : ℕ) : ℚ) / 314) * 40) ≤ pyInt (115 - ((y : ℚ) / 314) * 40) := by
    apply pyInt_mono
    · norm_num
    · have : ((313 : ℕ) : ℚ) = 313 := by norm_num
      rw [this]
      linarith
  have h2 : pyInt (115 - ((y : ℚ) / 314) * 40) ≤ pyInt (115 - (((0 : ℕ) : ℚ) / 314) * 40) := by
    apply pyInt_mono hnn
    have : ((0 : ℕ) : ℚ) = 0 := by norm_num
    rw [this]
    linarith
  have e1 : pyInt (115 - (((313 : ℕ) : ℚ) / 314) * 40) = 75 := by
    apply pyInt_eval <;> norm_num
  have e2 : pyInt (115 - (((0 : ℕ) : ℚ) / 314) * 40) = 115 := by
    apply pyInt_eval <;> norm_num
  omega

theorem sidebarB_bounds {y : ℕ} (hy : y < 314) :
    22 ≤ pyInt (22 + ((y : ℚ) / 314) * 10) ∧ pyInt (22 + ((y : ℚ) / 314) * 10) ≤ 31 := by
  have hc : (y : ℚ) ≤ 313 := by exact_mod_cast Nat.le_of_lt_succ hy
  have hc0 : (0 : ℚ) ≤ (y : ℚ) := by positivity
  have h1 : pyInt (22 + (((0 : ℕ) : ℚ) / 314) * 10) ≤ pyInt (22 + ((y : ℚ) / 314) * 10) := by
    apply pyInt_mono
    · norm_num
    · have h0y : (0 : ℚ) ≤ ((y : ℚ) / 314) * 10 := by positivity
      have : ((0 : ℕ) : ℚ) = 0 := by norm_num
      rw [this]
      linarith
  have h2 : pyInt (22 + ((y : ℚ) / 314) * 10) ≤ pyInt (22 + (((313 : ℕ) : ℚ) / 314) * 10) := by
    apply pyInt_mono
    · positivity
    · have : ((313 : ℕ) : ℚ) = 313 := by norm_num
      rw [this]
      linarith
  have e1 : pyInt (22 + (((0 : ℕ) : ℚ) / 314) * 10) = 22 := by
    apply pyInt_eval <;> norm_num
  have e2 : pyInt (22 + (((313 : ℕ) : ℚ) / 314) * 10) = 31 := by
    apply pyInt_eval <;> norm_num
  omega

theorem dropLast_dmgPath (sd : Path) : (dmgPath sd).dropLast = OUTPUT_DIR sd := by
  simp [dmgPath]

theorem dropLast_headerPath (sd : Path) : (headerPath sd).dropLast = OUTPUT_DIR sd := by
  simp [headerPath]

theorem dropLast_sidebarPath (sd : Path) : (sidebarPath sd).dropLast = OUTPUT_DIR sd := by
  simp [sidebarPath]

theorem dmgPath_ne_headerPath (sd : Path) : dmgPath sd ≠ headerPath sd := by
  intro h
  have h2 := List.append_cancel_left h
  simp at h2

theorem dmgPath_ne_sidebarPath (sd : Path) : dmgPath sd ≠ sidebarPath sd := by
  intro h
  have h2 := List.append_cancel_left h
  simp at h2

theorem headerPath_ne_sidebarPath (sd : Path) : headerPath sd ≠ sidebarPath sd := by
  intro h
  have h2 := List.append_cancel_left h
  simp at h2

theorem getFile_setFile_self (files : List (Path × SavedFile)) (p : Path) (d : SavedFile) :
    getFile (setFile files p d) p = some d := by
  rw [getFile, setFile, List.find?_cons_of_pos]
  · rfl
  · simp

theorem getFile_setFile_ne (files : List (Path × SavedFile)) (p q : Path) (d : SavedFile)
    (h : q ≠ p) : getFile (setFile files p d) q = getFile files q := by
  rw [getFile, setFile, List.find?_cons_of_neg]
  · rfl
  · simpa using Ne.symm h

theorem makedirs_exist_ok_of_mem {fs : FileSys} {p : Path} (h : p ∈ fs.dirs) :
    makedirs fs p true = .ok fs := by
  rw [makedirs, if_pos h]
  rfl

theorem self_mem_ancestors {p : Path} (hp : p ≠ []) : p ∈ ancestors p := by
  have hl : 0 < p.length := List.length_pos.2 hp
  rw [ancestors]
  refine List.mem_map.2 ⟨p.length - 1, List.mem_range.2 (by omega), ?_⟩
  rw [Nat.sub_add_cancel hl, List.take_length]

theorem makedirs_creates_ancestors (fs : FileSys) (p : Path) (h : p ∉ fs.dirs) :
    ∃ fs1, makedirs fs p true = .ok fs1 ∧ ∀ q ∈ ancestors p, q ∈ fs1.dirs := by
  refine ⟨{ fs with dirs := (ancestors p).filter (fun q => decide (q ∉ fs.dirs)) ++ fs.dirs },
    by rw [makedirs, if_neg h], ?_⟩
  intro q hq
  show q ∈ (ancestors p).filter (fun r => decide (r ∉ fs.dirs)) ++ fs.dirs
  by_cases hqd : q ∈ fs.dirs
  · exact List.mem_append.2 (Or.inr hqd)
  · exact List.mem_append.2 (Or.inl (List.mem_filter.2 ⟨hq, by simpa using hqd⟩))

theorem makedirs_true_ok (fs : FileSys) (p : Path) (hp : p ≠ []) :
    ∃ fs1, makedirs fs p true = .ok fs1 ∧ p ∈ fs1.dirs := by
  by_cases h : p ∈ fs.dirs
  · exact ⟨fs, makedirs_exist_ok_of_mem h, h⟩
  · obtain ⟨fs1, heq, hall⟩ := makedirs_creates_ancestors fs p h
    exact ⟨fs1, heq, hall p (self_mem_ancestors hp)⟩

theorem create_dmg_run_eq (sd : Path) (fs : FileSys) (h : OUTPUT_DIR sd ∈ fs.dirs) :
    create_dmg_background_run sd fs =
      .ok ({ fs with files := setFile fs.files (dmgPath sd) dmgSavedFile },
        "Created: " ++ renderPath (dmgPath sd), renderPath (dmgPath sd)) := by
  unfold create_dmg_background_run
  rw [imgSave, dropLast_dmgPath, if_pos h]

theorem create_header_run_eq (sd : Path) (fs : FileSys) (h : OUTPUT_DIR sd ∈ fs.dirs) :
    create_nsis_header_run sd fs =
      .ok ({ fs with files := setFile fs.files (headerPath sd) headerSavedFile },
        "Created: " ++ renderPath (headerPath sd), renderPath (headerPath sd)) := by
  unfold create_nsis_header_run
  rw [imgSave, dropLast_headerPath, if_pos h]

theorem create_sidebar_run_eq (sd : Path) (fs : FileSys) (h : OUTPUT_DIR sd ∈ fs.dirs) :
    create_nsis_sidebar_run sd fs =
      .ok ({ fs with files := setFile fs.files (sidebarPath sd) sidebarSavedFile },
        "Created: " ++ renderPath (sidebarPath sd), renderPath (sidebarPath sd)) := by
  unfold create_nsis_sidebar_run
  rw [imgSave, dropLast_sidebarPath, if_pos h]

theorem runScript_of_makedirs (sd : Path) (fs fs1 : FileSys)
    (heq : makedirs fs (OUTPUT_DIR sd) true = .ok fs1)
    (hmem : OUTPUT_DIR sd ∈ fs1.dirs) :
    runScript sd fs = .ok
      ⟨{ fs1 with files := setFile (setFile (setFile fs1.files (dmgPath sd) dmgSavedFile)
          (headerPath sd) headerSavedFile) (sidebarPath sd) sidebarSavedFile },
       ["Generating minimal installer assets...",
        "Created: " ++ renderPath (dmgPath sd),
        "Created: " ++ renderPath (headerPath sd),
        "Created: " ++ renderPath (sidebarPath sd), "Done!"],
       [renderPath (dmgPath sd), renderPath (headerPath sd), renderPath (sidebarPath sd)]⟩ := by
  simp only [runScript, heq, create_dmg_run_eq, create_header_run_eq, create_sidebar_run_eq,
    hmem]

theorem ite_ite_eq_left_iff {p q : Prop} [Decidable p] [Decidable q] {a b : Color}
    (hab : b ≠ a) : (if p then a else if q then a else b) = a ↔ p ∨ q := by
  split_ifs with h1 h2 <;> simp_all

/-! ## Claim theorems -/

/-- C1: for every column x in 0..149, `create_nsis_header` gives the
full-height column at x the color `(shade, green, 22)` with
`shade = int(249 - (x/150)*30)` and `green = max(80, 115 - int((x/150)*35))`,
and these columns fully overwrite the initial uniform fill: every pixel of
the final 150x57 image equals its column's gradient color. -/
theorem header_gradient_pixels (x y : ℕ) (hx : x < 150) (hy : y < 57) :
    create_nsis_header_img.width = 150 ∧ create_nsis_header_img.height = 57 ∧
    create_nsis_header_img.px x y =
      ⟨pyInt (249 - ((x : ℚ) / 150) * 30), max 80 (115 - pyInt (((x : ℚ) / 150) * 35)), 22⟩ := by
  refine ⟨rfl, rfl, ?_⟩
  rw [header_px x y hx, headerColor, headerShade_eq, headerGreen_eq]

theorem header_gradient_pixels_wit :
    create_nsis_header_img.width = 150 ∧ create_nsis_header_img.height = 57 ∧
    create_nsis_header_img.px 5 3 =
      ⟨pyInt (249 - (((5 : ℕ) : ℚ) / 150) * 30),
       max 80 (115 - pyInt ((((5 : ℕ) : ℚ) / 150) * 35)), 22⟩ :=
  header_gradient_pixels 5 3 (by norm_num) (by norm_num)

/-- C2: for every row y in 0..313, `create_nsis_sidebar` gives the
full-width row at y the color `(r, g, b)` with `factor = y/314` kept
rational and `r = int(249 - factor*50)`, `g = int(115 - factor*40)`,
`b = int(22 + factor*10)`; in particular row 0 is `(249, 115, 22)` and
the last row's red channel is 199. -/
theorem sidebar_gradient_pixels (x y : ℕ) (hx : x < 164) (hy : y < 314) :
    create_nsis_sidebar_img.width = 164 ∧ create_nsis_sidebar_img.height = 314 ∧
    create_nsis_sidebar_img.px x y =
      ⟨pyInt (249 - ((y : ℚ) / 314) * 50), pyInt (115 - ((y : ℚ) / 314) * 40),
        pyInt (22 + ((y : ℚ) / 314) * 10)⟩ ∧
    create_nsis_sidebar_img.px x 0 = ⟨249, 115, 22⟩ ∧
    (create_nsis_sidebar_img.px x 313).r = 199 := by
  refine ⟨(foldl_drawRow_dims sidebarColor (List.range sidebarHeight)
      (newRGB sidebarWidth sidebarHeight ACCENT_COLOR)).1,
    (foldl_drawRow_dims sidebarColor (List.range sidebarHeight)
      (newRGB sidebarWidth sidebarHeight ACCENT_COLOR)).2, ?_, ?_, ?_⟩
  · rw [sidebar_px x y hy, sidebarColor_eq]
  · rw [sidebar_px x 0 (by norm_num [sidebarHeight]), sidebarColor_eq]
    have e1 : pyInt (249 - (((0 : ℕ) : ℚ) / 314) * 50) = 249 := by
      apply pyInt_eval <;> norm_num
    have e2 : pyInt (115 - (((0 : ℕ) : ℚ) / 314) * 40) = 115 := by
      apply pyInt_eval <;> norm_num
    have e3 : pyInt (22 + (((0 : ℕ) : ℚ) / 314) * 10) = 22 := by
      apply pyInt_eval <;> norm_num
    rw [e1, e2, e3]
  · rw [sidebar_px x 313 (by norm_num [sidebarHeight])]
    have e : pyInt (249 - (((313 : ℕ) : ℚ) / 314) * 50) = 199 := by
      apply pyInt_eval <;> norm_num
    exact e

theorem sidebar_gradient_pixels_wit :
    create_nsis_sidebar_img.px 3 0 = ⟨249, 115, 22⟩ :=
  (sidebar_gradient_pixels 3 7 (by norm_num) (by norm_num)).2.2.2.1

/-- C3: the arrow of `create_dmg_background` is a width-4 horizontal shaft
at y = 190 running from x = 260 to x = 388 (12 pixels short of the tip at
x = 400) plus a solid filled isoceles triangle with tip (400, 190) and
base vertices (386, 180) and (386, 200) (length 14, half-width 10),
pointing rightward, in the fixed arrow color: a pixel is arrow-colored
exactly when it lies in the shaft rectangle or in the closed triangle. -/
theorem dmg_arrow_geometry :
    shaft_thickness = 4 ∧ arrow_start_x = 260 ∧ arrow_end_x - 12 = 388 ∧
    arrow_head = [(400, 190), (386, 180), (386, 200)] ∧
    ∀ x y : ℕ, x < 660 → y < 400 →
      (create_dmg_background_img.px x y = ARROW_COLOR ↔
        (260 ≤ x ∧ x ≤ 388 ∧ 189 ≤ y ∧ y ≤ 192) ∨
        (386 ≤ x ∧ x ≤ 400 ∧ 14 * Nat.dist y 190 ≤ 10 * (400 - x))) := by
  refine ⟨rfl, rfl, rfl, rfl, ?_⟩
  intro x y hx hy
  simp only [create_dmg_background_img, drawTriangleRight, drawWideHLine, newRGB]
  rw [ite_ite_eq_left_iff (by decide)]
  simp only [arrow_start_x, arrow_end_x, arrow_y, head_length, head_width, shaft_thickness,
    Nat.dist]
  omega

theorem dmg_arrow_geometry_wit :
    create_dmg_background_img.px 395 190 = ARROW_COLOR ↔
      (260 ≤ 395 ∧ 395 ≤ 388 ∧ 189 ≤ 190 ∧ 190 ≤ 192) ∨
      (386 ≤ 395 ∧ 395 ≤ 400 ∧ 14 * Nat.dist 190 190 ≤ 10 * (400 - 395)) :=
  dmg_arrow_geometry.2.2.2.2 395 190 (by norm_num) (by norm_num)

/-- C4: the DMG background is exactly 660x400; pixel (10, 10) is the
background fill (245, 245, 247); the arrowhead tip pixel (400, 190) is the
arrow color (160, 160, 165); pixel (300, 50), outside the arrow, is the
background color. -/
theorem dmg_pixel_probes :
    create_dmg_background_img.width = 660 ∧ create_dmg_background_img.height = 400 ∧
    create_dmg_background_img.px 10 10 = DMG_BG_COLOR ∧ DMG_BG_COLOR = ⟨245, 245, 247⟩ ∧
    create_dmg_background_img.px 400 190 = ARROW_COLOR ∧ ARROW_COLOR = ⟨160, 160, 165⟩ ∧
    create_dmg_background_img.px 300 50 = DMG_BG_COLOR := by
  refine ⟨rfl, rfl, ?_, rfl, ?_, rfl, ?_⟩ <;> decide

/-- C5: column 0 of the header has red channel 249, and the red channel is
monotonically non-increasing in x: for x1 ≤ x2 < 150 the red value at
column x2 is at most the red value at column x1. -/
theorem header_red_monotone (x1 x2 y1 y2 : ℕ) (h12 : x1 ≤ x2) (hx2 : x2 < 150)
    (hy1 : y1 < 57) (hy2 : y2 < 57) :
    (create_nsis_header_img.px 0 0).r = 249 ∧
    (create_nsis_header_img.px x2 y2).r ≤ (create_nsis_header_img.px x1 y1).r := by
  constructor
  · rw [header_px 0 0 (by norm_num [headerWidth])]
    show headerShade 0 = 249
    rw [headerShade_eq]
    apply pyInt_eval <;> norm_num
  · rw [header_px x2 y2 hx2, header_px x1 y1 (show x1 < 150 by omega)]
    exact headerShade_anti h12 (by omega)

theorem header_red_monotone_wit :
    (create_nsis_header_img.px 0 0).r = 249 ∧
    (create_nsis_header_img.px 145 3).r ≤ (create_nsis_header_img.px 7 2).r :=
  header_red_monotone 7 145 2 3 (by norm_num) (by norm_num) (by norm_num) (by norm_num)

/-- C6: generation is deterministic: the three image-producing operations
consult no part of the process environment (no arguments, environment
variables, stdin or randomness), so the pixel buffers of any two runs are
identical. -/
theorem generation_deterministic (e1 e2 : Env) :
    generatedBuffers e1 = generatedBuffers e2 ∧
    generatedBuffers e1 =
      (create_dmg_background_img, create_nsis_header_img, create_nsis_sidebar_img) :=
  ⟨rfl, rfl⟩

theorem generation_deterministic_wit :
    generatedBuffers ⟨[], [], [], 0⟩ = generatedBuffers ⟨["--verbose"],
      [("HOME", "/root")], ["some stdin"], 42⟩ ∧
    generatedBuffers ⟨[], [], [], 0⟩ =
      (create_dmg_background_img, create_nsis_header_img, create_nsis_sidebar_img) :=
  generation_deterministic ⟨[], [], [], 0⟩ ⟨["--verbose"], [("HOME", "/root")], ["some stdin"], 42⟩

/-- C7: a second run with the output directory already existing and
already populated succeeds: the module-level `os.makedirs(...,
exist_ok=True)` is a no-op on an existing directory (and creates any
missing parents otherwise), and each of the three saves overwrites the
existing file at its fixed path. -/
theorem rerun_overwrites (sd : Path) (fs : FileSys)
    (hdir : OUTPUT_DIR sd ∈ fs.dirs)
    (h1 : (getFile fs.files (dmgPath sd)).isSome = true)
    (h2 : (getFile fs.files (headerPath sd)).isSome = true)
    (h3 : (getFile fs.files (sidebarPath sd)).isSome = true) :
    makedirs fs (OUTPUT_DIR sd) true = .ok fs ∧
    (∀ (fs2 : FileSys) (p : Path), p ∉ fs2.dirs →
      ∃ fs3, makedirs fs2 p true = .ok fs3 ∧ ∀ q ∈ ancestors p, q ∈ fs3.dirs) ∧
    ∃ r, runScript sd fs = .ok r ∧ r.fs.dirs = fs.dirs ∧
      getFile r.fs.files (dmgPath sd) = some dmgSavedFile ∧
      getFile r.fs.files (headerPath sd) = some headerSavedFile ∧
      getFile r.fs.files (sidebarPath sd) = some sidebarSavedFile := by
  refine ⟨makedirs_exist_ok_of_mem hdir,
    fun fs2 p hp => makedirs_creates_ancestors fs2 p hp, ?_⟩
  refine ⟨_, runScript_of_makedirs sd fs fs (makedirs_exist_ok_of_mem hdir) hdir,
    rfl, ?_, ?_, ?_⟩
  · show getFile (setFile (setFile (setFile fs.files (dmgPath sd) dmgSavedFile)
        (headerPath sd) headerSavedFile) (sidebarPath sd) sidebarSavedFile) (dmgPath sd)
      = some dmgSavedFile
    rw [getFile_setFile_ne _ _ _ _ (dmgPath_ne_sidebarPath sd),
        getFile_setFile_ne _ _ _ _ (dmgPath_ne_headerPath sd), getFile_setFile_self]
  · show getFile (setFile (setFile (setFile fs.files (dmgPath sd) dmgSavedFile)
        (headerPath sd) headerSavedFile) (sidebarPath sd) sidebarSavedFile) (headerPath sd)
      = some headerSavedFile
    rw [getFile_setFile_ne _ _ _ _ (headerPath_ne_sidebarPath sd), getFile_setFile_self]
  · show getFile (setFile (setFile (setFile fs.files (dmgPath sd) dmgSavedFile)
        (headerPath sd) headerSavedFile) (sidebarPath sd) sidebarSavedFile) (sidebarPath sd)
      = some sidebarSavedFile
    rw [getFile_setFile_self]

theorem rerun_overwrites_wit :
    makedirs demoFS (OUTPUT_DIR demoDir) true = .ok demoFS :=
  (rerun_overwrites demoDir demoFS (by decide) (by decide) (by decide) (by decide)).1

/-- C8: on a successful run, the driver prints exactly five lines in fixed
order: a start banner, one confirmation line per file in the order DMG
background, NSIS header, NSIS sidebar (each containing its output path),
then a completion banner; and each creator returns its output path. -/
theorem driver_console_lines (sd : Path) (fs : FileSys) (r : RunResult)
    (h : runScript sd fs = .ok r) :
    r.stdout = ["Generating minimal installer assets...",
      "Created: " ++ renderPath (dmgPath sd),
      "Created: " ++ renderPath (headerPath sd),
      "Created: " ++ renderPath (sidebarPath sd), "Done!"] ∧
    r.stdout.length = 5 ∧
    r.returned = [renderPath (dmgPath sd), renderPath (headerPath sd),
      renderPath (sidebarPath sd)] := by
  obtain ⟨fs1, heq, hmem⟩ := makedirs_true_ok fs (OUTPUT_DIR sd) (by simp [OUTPUT_DIR])
  rw [runScript_of_makedirs sd fs fs1 heq hmem] at h
  injection h with h4
  subst h4
  exact ⟨rfl, rfl, rfl⟩

theorem driver_console_lines_wit :
    demoRunResult.stdout = ["Generating minimal installer assets...",
      "Created: " ++ renderPath (dmgPath demoDir),
      "Created: " ++ renderPath (headerPath demoDir),
      "Created: " ++ renderPath (sidebarPath demoDir), "Done!"] ∧
    demoRunResult.stdout.length = 5 ∧
    demoRunResult.returned = [renderPath (dmgPath demoDir), renderPath (headerPath demoDir),
      renderPath (sidebarPath demoDir)] :=
  driver_console_lines demoDir emptyFS demoRunResult
    (runScript_of_makedirs demoDir emptyFS demoFS1 (by rfl) (by decide))

/-- C9: the lower-bound clamp in the header's green channel is
unreachable: for every column x in 0..149, `115 - int((x/150)*35)` is at
least 81, so `max(80, ·)` never selects 80 and the green channel lies in
[81, 115]. -/
theorem header_green_clamp_unreachable (x : ℕ) (hx : x < 150) :
    81 ≤ 115 - pyInt (((x : ℚ) / 150) * 35) ∧
    headerGreen x = 115 - pyInt (((x : ℚ) / 150) * 35) ∧
    81 ≤ headerGreen x ∧ headerGreen x ≤ 115 := by
  obtain ⟨hg1, hg2, hg3⟩ := headerGreen_bounds hx
  obtain ⟨t1, t2⟩ := headerT_bounds hx
  exact ⟨by omega, hg3, hg1, hg2⟩

theorem header_green_clamp_unreachable_wit :
    81 ≤ 115 - pyInt ((((42 : ℕ) : ℚ) / 150) * 35) ∧
    headerGreen 42 = 115 - pyInt ((((42 : ℕ) : ℚ) / 150) * 35) ∧
    81 ≤ headerGreen 42 ∧ headerGreen 42 ≤ 115 :=
  header_green_clamp_unreachable 42 (by norm_num)

/-- C10: every RGB component computed by the gradient loops is an integer
in [0, 255]; more precisely header red in [219, 249], header green in
[81, 115], header blue 22, sidebar red in [199, 249], sidebar green in
[75, 115], sidebar blue in [22, 31]. -/
theorem gradient_channels_in_byte_range (x y : ℕ) (hx : x < 150) (hy : y < 314) :
    (219 ≤ (headerColor x).r ∧ (headerColor x).r ≤ 249) ∧
    (81 ≤ (headerColor x).g ∧ (headerColor x).g ≤ 115) ∧
    (headerColor x).b = 22 ∧
    (199 ≤ (sidebarColor y).r ∧ (sidebarColor y).r ≤ 249) ∧
    (75 ≤ (sidebarColor y).g ∧ (sidebarColor y).g ≤ 115) ∧
    (22 ≤ (sidebarColor y).b ∧ (sidebarColor y).b ≤ 31) ∧
    (0 ≤ (headerColor x).r ∧ (headerColor x).r ≤ 255) ∧
    (0 ≤ (headerColor x).g ∧ (headerColor x).g ≤ 255) ∧
    (0 ≤ (headerColor x).b ∧ (headerColor x).b ≤ 255) ∧
    (0 ≤ (sidebarColor y).r ∧ (sidebarColor y).r ≤ 255) ∧
    (0 ≤ (sidebarColor y).g ∧ (sidebarColor y).g ≤ 255) ∧
    (0 ≤ (sidebarColor y).b ∧ (sidebarColor y).b ≤ 255) := by
  have hs := headerShade_bounds hx
  obtain ⟨hg1, hg2, hg3⟩ := headerGreen_bounds hx
  have hr := sidebarR_bounds hy
  have hgs := sidebarG_bounds hy
  have hb := sidebarB_bounds hy
  exact ⟨⟨hs.1, hs.2⟩, ⟨hg1, hg2⟩, rfl, ⟨hr.1, hr.2⟩, ⟨hgs.1, hgs.2⟩, ⟨hb.1, hb.2⟩,
    ⟨le_trans (by norm_num) hs.1, le_trans hs.2 (by norm_num)⟩,
    ⟨le_trans (by norm_num) hg1, le_trans hg2 (by norm_num)⟩,
    ⟨(by norm_num : (0 : ℤ) ≤ 22), (by norm_num : (22 : ℤ) ≤ 255)⟩,
    ⟨le_trans (by norm_num) hr.1, le_trans hr.2 (by norm_num)⟩,
    ⟨le_trans (by norm_num) hgs.1, le_trans hgs.2 (by norm_num)⟩,
    ⟨le_trans (by norm_num) hb.1, le_trans hb.2 (by norm_num)⟩⟩

theorem gradient_channels_in_byte_range_wit :
    219 ≤ (headerColor 10).r ∧ (headerColor 10).r ≤ 249 :=
  (gradient_channels_in_byte_range 10 20 (by norm_num) (by norm_num)).1

end Sentinel
